import Mathlib

/-!
Shallow embedding of the vouch-proxy core (src/handlers/handlers.go) and the
collaborators its handlers call.  Pure functions of the Go source become Lean
functions; the session store becomes an explicit association list that each
handler threads through; Go type assertions that can panic make the handlers
return `Option`; fallible collaborators (the JWT parser, the random source,
the userinfo fetch) are passed in as `Except`-valued arguments so that the
handlers stay pure.
-/

namespace Vouch

/-- Split a character list at every occurrence of `c`, the accumulator holding
the current piece reversed. -/
def splitCharAux (c : Char) : List Char → List Char → List (List Char)
  | [], acc => [acc.reverse]
  | d :: ds, acc =>
    if d = c then acc.reverse :: splitCharAux c ds []
    else splitCharAux c ds (d :: acc)

/-- Join character-list pieces with a single `c` between them. -/
def joinChar (c : Char) : List (List Char) → List Char
  | [] => []
  | [x] => x
  | x :: rest => x ++ c :: joinChar c rest

/-- Go's `strings.SplitN (s, " ", 2)`: at most two pieces, the second piece
keeping every later occurrence of the space. -/
def splitN2 (s : String) (sep : Char) : List String :=
  match splitCharAux sep s.data [] with
  | [] => []
  | [x] => [String.mk x]
  | x :: rest => [String.mk x, String.mk (joinChar sep rest)]

/-- `regexp.Compile ("[^a-zA-Z0-9]+")` followed by `ReplaceAllString (s, "")`:
every character that is not an ASCII letter or digit is removed. -/
def justAlphaNum (s : String) : String :=
  String.mk (s.data.filter fun c => c.isAlpha || c.isDigit)

/-- A claim value carried inside `CustomClaims` (`map[string]interface{}` in
Go).  `seq` is the one shape the code detects with `v.([]interface{})`; every
other shape falls to `fmt.Sprint`, whose rendering the constructors carry. -/
inductive ClaimValue where
  | str (s : String)
  | num (n : Int)
  | seq (xs : List String)
  | other (rendering : String)
deriving DecidableEq, Repr

/-- `fmt.Sprint v` for a non-sequence claim value. -/
def fmtSprint : ClaimValue → String
  | .str s => s
  | .num n => toString n
  | .seq xs => "[" ++ String.intercalate " " xs ++ "]"
  | .other r => r

/-- `structs.User`: the fields the core reads. -/
structure User where
  username : String
  email : String
  teamMemberships : List String
deriving DecidableEq, Repr

/-- `structs.CustomClaims`: claim-name to claim-value mapping. -/
abbrev CustomClaims := List (String × ClaimValue)

/-- `structs.PTokens`: the upstream access and id token strings. -/
structure PTokens where
  pAccessToken : String
  pIdToken : String
deriving DecidableEq, Repr

/-- `jwtmanager.VouchClaims`: the parsed proof token's fields the validator
reads. -/
structure VouchClaims where
  username : String
  sites : List String
  customClaims : CustomClaims
  pAccessToken : String
  pIdToken : String
deriving DecidableEq, Repr

/-- The header names of `cfg.Cfg.Headers`, plus the cleaned claim-to-header
mapping. -/
structure HeadersCfg where
  user : String
  success : String
  jwt : String
  queryString : String
  accessToken : String
  idToken : String
  claimsCleaned : List (String × String)
deriving DecidableEq, Repr

/-- The process-wide configuration fields `handlers.go` reads
(`cfg.Cfg` and `cfg.Branding.CcName`). -/
structure Config where
  publicAccess : Bool
  allowAllUsers : Bool
  whiteList : List String
  teamWhiteList : List String
  domains : List String
  testing : Bool
  headers : HeadersCfg
  ccName : String
deriving DecidableEq, Repr

/-- The inputs of one `/validate` request that `FindJWT` and
`ValidateRequestHandler` read, with each named header already looked up. -/
structure Request where
  cookieJWT : Option String
  jwtHeaderVal : String
  authHeaderVal : String
  queryVal : String
  host : String
deriving DecidableEq, Repr

/-- `FindJWT`: look for the token in the cookie, the configured JWT header,
the `Authorization` header split on the first space, and the configured
query-string parameter, in that order. -/
def FindJWT (r : Request) : String :=
  match r.cookieJWT with
  | some jwt => jwt
  | none =>
    let jwt := r.jwtHeaderVal
    if jwt ≠ "" then jwt
    else
      let auth := r.authHeaderVal
      let fromQuery := if r.queryVal ≠ "" then r.queryVal else ""
      if auth ≠ "" then
        match splitN2 auth ' ' with
        | [_, second] => second
        | _ => fromQuery
      else fromQuery

/-- A value stored in the gorilla session's `Values` map (`interface{}` in Go);
the handlers store strings and ints. -/
inductive SessVal where
  | str (s : String)
  | int (n : Int)
deriving DecidableEq, Repr

/-- The session store's `Values`, as the association list of its entries. -/
structure Session where
  values : List (String × SessVal)
deriving DecidableEq, Repr

/-- `session.Values[k]`: `none` models the Go `nil` interface. -/
def Session.get (s : Session) (k : String) : Option SessVal :=
  (s.values.find? fun p => p.1 = k).map Prod.snd

/-- `session.Values[k] = v`. -/
def Session.set (s : Session) (k : String) (v : SessVal) : Session :=
  ⟨(k, v) :: s.values.filter fun p => p.1 ≠ k⟩

/-- The observable effects one handler invocation writes to the
`http.ResponseWriter` and the cookie collaborator. -/
structure Response where
  status : Nat
  headers : List (String × String)
  body : String
  cookieCleared : Bool
  cookieSet : Option String
deriving DecidableEq, Repr

/-- `indexTemplate.Execute` with the given message: the rendered page embeds
the message. -/
def indexBody (msg : String) : String :=
  "index:" ++ msg

/-- `renderIndex (w, msg)` as a whole response: the template is executed with
an implicit 200 unless a status was written first (callers that write one are
modelled at the call site). -/
def renderIndexResp (msg : String) : Response :=
  { status := 200, headers := [], body := indexBody msg,
    cookieCleared := false, cookieSet := none }

/-- The extra headers Go's `http.Error` always sets before writing the
status and the message. -/
def httpErrorHeaders : List (String × String) :=
  [("Content-Type", "text/plain; charset=utf-8"),
   ("X-Content-Type-Options", "nosniff")]

/-- `error401 (w, r, ae)`: clear the proof cookie and `http.Error` with the
message and status 401 (the message gains the trailing newline
`http.Error` writes). -/
def error401Resp (msg : String) : Response :=
  { status := 401, headers := httpErrorHeaders, body := msg ++ "\n",
    cookieCleared := true, cookieSet := none }

/-- `redirect302 (w, r, url)`: under `cfg.Cfg.Testing` it renders the index
page naming the target, otherwise `http.Redirect` with status 302 and a
`Location` header. -/
def redirect302Resp (cfg : Config) (url : String) : Response :=
  if cfg.testing then renderIndexResp ("302 redirect to: " ++ url)
  else
    { status := 302, headers := [("Location", url)], body := "",
      cookieCleared := false, cookieSet := none }

/-- Whether `needle` is an initial segment of `haystack`. -/
def charsStartWith : List Char → List Char → Bool
  | [], _ => true
  | _ :: _, [] => false
  | c :: cs, d :: ds => c = d && charsStartWith cs ds

/-- Whether `needle` occurs contiguously inside `haystack`
(`strings.Contains`). -/
def charsContain (needle : List Char) : List Char → Bool
  | [] => needle.isEmpty
  | d :: ds => charsStartWith needle (d :: ds) || charsContain needle ds

/-- Modelled from the spec: `jwtmanager.SiteInClaims (site, claims)` is not
under src/; per the spec it is true iff the host matches, by the
case-sensitive substring/domain rule, an entry of the token's embedded
authorized-site set. -/
def SiteInClaims (host : String) (claims : VouchClaims) : Bool :=
  claims.sites.any fun s => charsContain s.data host.data

/-- The claim-projection loop of `ValidateRequestHandler` (lines 218-259):
for every custom claim and every configured claim-to-header mapping with the
same claim name, emit one header.  A `[]interface{}` value becomes the
comma-separated list of its double-quoted elements; any other value goes
through `fmt.Sprint`, and since `fmt.Sprint` always yields a string the
`reflect` guard on the else branch always passes, so the header is always
added. -/
def projectClaims (claimsCleaned : List (String × String))
    (custom : CustomClaims) : List (String × String) :=
  if claimsCleaned.length > 0 then
    custom.flatMap fun kv =>
      claimsCleaned.flatMap fun ch =>
        if ch.1 = kv.1 then
          match kv.2 with
          | .seq xs =>
            [(ch.2, String.intercalate "," (xs.map fun e => "\"" ++ e ++ "\""))]
          | v => [(ch.2, fmtSprint v)]
        else []
  else []

/-- The success-path headers of `/validate` after the site check: the
projected claim headers, the user and success headers, and the optional
access-token and id-token passthrough headers. -/
def validateSuccessHeaders (cfg : Config) (claims : VouchClaims) :
    List (String × String) :=
  projectClaims cfg.headers.claimsCleaned claims.customClaims
    ++ [(cfg.headers.user, claims.username), (cfg.headers.success, "true")]
    ++ (if cfg.headers.accessToken ≠ "" ∧ claims.pAccessToken ≠ "" then
          [(cfg.headers.accessToken, claims.pAccessToken)] else [])
    ++ (if cfg.headers.idToken ≠ "" ∧ claims.pIdToken ≠ "" then
          [(cfg.headers.idToken, claims.pIdToken)] else [])

/-- The public-access fallthrough inside the failure branches of `/validate`:
only the empty user header is added, nothing is written, so Go responds 200
with an empty body. -/
def publicEmptyResp (cfg : Config) : Response :=
  { status := 200, headers := [(cfg.headers.user, "")], body := "",
    cookieCleared := false, cookieSet := none }

/-- `ValidateRequestHandler`: the `/validate` endpoint.  `parse` stands for
`ClaimsFromJWT`, whose body lives in the jwtmanager collaborator
(`ParseTokenString` then `PTokenClaims`); an `Except.error` carries
`err.Error ()`. -/
def ValidateRequestHandler (cfg : Config)
    (parse : String → Except String VouchClaims) (r : Request) : Response :=
  let jwt := FindJWT r
  if jwt = "" then
    if cfg.publicAccess then
      { status := 200, headers := [(cfg.headers.user, "")], body := "200 OK\n",
        cookieCleared := false, cookieSet := none }
    else error401Resp "no jwt found in request"
  else
    match parse jwt with
    | .error e =>
      if ¬cfg.publicAccess then error401Resp e
      else publicEmptyResp cfg
    | .ok claims =>
      if claims.username = "" then
        if ¬cfg.publicAccess then error401Resp "no Username found in jwt"
        else publicEmptyResp cfg
      else if ¬cfg.allowAllUsers ∧ ¬SiteInClaims r.host claims then
        if ¬cfg.publicAccess then
          error401Resp ("http header 'Host: " ++ r.host
            ++ "' not authorized for configured `vouch.domains` (is Host being sent properly?)")
        else publicEmptyResp cfg
      else
        let hdrs := validateSuccessHeaders cfg claims
        if cfg.testing then
          { renderIndexResp ("user authorized " ++ claims.username) with
              headers := hdrs }
        else
          { status := 200, headers := hdrs, body := "200 OK\n",
            cookieCleared := false, cookieSet := none }

/-- `VerifyUser (u)`: the authorization policy engine.  `ium` stands for the
domain-matching collaborator's `domains.IsUnderManagement`;  the second
component is the `error` Go returns alongside `false` (its `Error ()` text),
empty on success. -/
def VerifyUser (cfg : Config) (ium : String → Bool) (user : User) :
    Bool × String :=
  if cfg.allowAllUsers then (true, "")
  else if cfg.whiteList.length ≠ 0 then
    if cfg.whiteList.any fun wl => user.username = wl then (true, "")
    else (false, "VerifyUser: user.Username not found in WhiteList: "
      ++ user.username)
  else if cfg.teamWhiteList.length ≠ 0 then
    if user.teamMemberships.any fun team =>
        cfg.teamWhiteList.any fun wl => team = wl then (true, "")
    else (false, "VerifyUser: user.TeamMemberships "
      ++ fmtSprint (.seq user.teamMemberships) ++ " not found in TeamWhiteList: "
      ++ fmtSprint (.seq cfg.teamWhiteList) ++ " for user " ++ user.username)
  else if cfg.domains.length ≠ 0 then
    if ium user.email then (true, "")
    else (false, "VerifyUser: Email " ++ user.email ++ " is not within a "
      ++ cfg.ccName ++ " managed domain")
  else (true, "")

/-- The policy engine as the spec words it (section 4.3): strict precedence,
first matching tier wins, exactly one tier evaluated. -/
def specPolicy (cfg : Config) (ium : String → Bool) (user : User) : Bool :=
  if cfg.allowAllUsers then true
  else if cfg.whiteList ≠ [] then cfg.whiteList.contains user.username
  else if cfg.teamWhiteList ≠ [] then
    user.teamMemberships.any fun t => cfg.teamWhiteList.contains t
  else if cfg.domains ≠ [] then ium user.email
  else true

/-- `generateStateNonce`: `rand` stands for
`securerandom.URLBase64InBytes (base64Bytes)`; on success every
non-alphanumeric character is stripped, on failure the error is returned with
the empty string. -/
def generateStateNonce (rand : Except String String) : Except String String :=
  match rand with
  | .error e => .error e
  | .ok state => .ok (justAlphaNum state)

/-- The query-string inputs of one `/login` request. -/
structure LoginRequest where
  url : String
  errorParam : String
deriving DecidableEq, Repr

/-- The `state` value `LoginHandler` keeps after calling
`generateStateNonce`: on error the error is only logged, and the zero-value
string the Go function returned stays in use. -/
def stateOf (rand : Except String String) : String :=
  match generateStateNonce rand with
  | .error _ => ""
  | .ok s => s

/-- `LoginHandler`: the `/login` endpoint.  `rand` is the random source
outcome for this request and `loginURLf` stands for `loginURL (r, state)`
(built from the oauth2 collaborator and the provider config) as a function of
the state.  `none` models the panic of the `session.Values[url].(int)` type
assertion when the stored value is not an int. -/
def LoginHandler (cfg : Config) (rand : Except String String)
    (loginURLf : String → String) (session : Session) (r : LoginRequest) :
    Option (Session × Response) :=
  let state := stateOf rand
  let session := session.set "state" (.str state)
  if r.url = "" then
    some (session,
      { renderIndexResp "/login no destination URL requested" with
          cookieCleared := true })
  else
    let session := session.set "requestedURL" (.str r.url)
    match session.get r.url with
    | some (.str _) => none
    | stored =>
      let failcount : Int := (match stored with
        | some (.int n) => n
        | _ => 0) + 1
      let session := session.set r.url (.int failcount)
      if failcount > 2 then
        some (session,
          { renderIndexResp ("/login too many redirects for " ++ r.url
              ++ " - " ++ r.errorParam) with cookieCleared := true })
      else
        some (session,
          { redirect302Resp cfg (loginURLf state) with cookieCleared := true })

/-- The query-string inputs of one `/auth` callback request. -/
structure CallbackQuery where
  state : String
  error : String
  errorDescription : String
deriving DecidableEq, Repr

/-- `CallbackHandler`: the `/auth` endpoint.  `sessErr` is the session
store's failure, `guInfo` the outcome of the provider's `GetUserInfo`, and
`createToken` stands for `jwtmanager.CreateUserTokenString`.  `none` models
the panic of the `session.Values["requestedURL"].(string)` type assertion. -/
def CallbackHandler (cfg : Config) (ium : String → Bool)
    (createToken : User → CustomClaims → PTokens → String)
    (sessErr : Option String)
    (guInfo : Except String (User × CustomClaims × PTokens))
    (session : Session) (q : CallbackQuery) : Option (Session × Response) :=
  match sessErr with
  | some e =>
    some (session,
      { status := 500, headers := httpErrorHeaders, body := e ++ "\n",
        cookieCleared := false, cookieSet := none })
  | none =>
  if session.get "state" ≠ some (.str q.state) then
    some (session, renderIndexResp "/auth Invalid session state.")
  else if q.error ≠ "" then
    some (session,
      { renderIndexResp ("FORBIDDEN: " ++ q.errorDescription) with
          status := 403 })
  else
    match guInfo with
    | .error e =>
      some (session,
        { status := 400, headers := httpErrorHeaders, body := e ++ "\n",
          cookieCleared := false, cookieSet := none })
    | .ok (user, customClaims, ptokens) =>
      match session.get "requestedURL" with
      | some (.str requestedURL) =>
        let verdict := VerifyUser cfg ium user
        if ¬verdict.1 then
          if requestedURL ≠ "" then
            some (session, renderIndexResp ("/auth User is not authorized. "
              ++ verdict.2 ++ " <a href=\"" ++ requestedURL
              ++ "\">Please try again</a>."))
          else
            some (session, renderIndexResp ("/auth User is not authorized. "
              ++ verdict.2 ++ " Please try again."))
        else
          let tokenstring := createToken user customClaims ptokens
          if requestedURL ≠ "" then
            let session := (session.set "requestedURL" (.str "")).set
              requestedURL (.int 0)
            some (session,
              { redirect302Resp cfg requestedURL with
                  cookieSet := some tokenstring })
          else
            some (session,
              { renderIndexResp ("/auth " ++ tokenstring) with
                  cookieSet := some tokenstring })
      | _ => none

/-- The proof cookie a callback outcome set, if any. -/
def issuedCookie (res : Option (Session × Response)) : Option String :=
  res.bind fun p => p.2.cookieSet

/-- The value a non-sequence claim contributes to its configured header and
the quoted comma-join a sequence contributes. -/
def renderClaim : ClaimValue → String
  | .seq xs => String.intercalate "," (xs.map fun e => "\"" ++ e ++ "\"")
  | v => fmtSprint v

/-! Concrete fixtures used to evaluate the handlers on closed inputs. -/

/-- A representative header configuration. -/
def testHeaders : HeadersCfg :=
  { user := "X-Vouch-User", success := "X-Vouch-Success", jwt := "X-Vouch-Token",
    queryString := "x-vouch-token", accessToken := "", idToken := "",
    claimsCleaned := [] }

/-- A base configuration: nothing public, nothing allowed globally. -/
def baseCfg : Config :=
  { publicAccess := false, allowAllUsers := false, whiteList := [],
    teamWhiteList := [], domains := [], testing := false,
    headers := testHeaders, ccName := "vouch" }

/-- `baseCfg` with public-access mode enabled. -/
def pubCfg : Config :=
  { baseCfg with publicAccess := true }

/-- A token parser that rejects everything. -/
def badParse : String → Except String VouchClaims :=
  fun _ => .error "token parse failed"

/-- Parsed claims for the user `alice` authorized for host `h`. -/
def aliceClaims : VouchClaims :=
  { username := "alice", sites := ["h"],
    customClaims := [("groups", ClaimValue.other "map[a:1]")],
    pAccessToken := "", pIdToken := "" }

/-- A token parser that accepts exactly the token `tok` as `aliceClaims`. -/
def aliceParse : String → Except String VouchClaims :=
  fun s => if s = "tok" then .ok aliceClaims else .error "token parse failed"

/-- A `/validate` request carrying the token `tok` in the query string. -/
def reqTok : Request :=
  { cookieJWT := none, jwtHeaderVal := "", authHeaderVal := "",
    queryVal := "tok", host := "h" }

/-- A `/validate` request carrying an unparseable token. -/
def reqBad : Request :=
  { cookieJWT := none, jwtHeaderVal := "", authHeaderVal := "",
    queryVal := "garbage", host := "h" }

/-- A `/validate` request carrying no token anywhere. -/
def reqNone : Request :=
  { cookieJWT := none, jwtHeaderVal := "", authHeaderVal := "",
    queryVal := "", host := "h" }

/-- `baseCfg` with one claim-to-header mapping configured. -/
def cfgGroups : Config :=
  { baseCfg with headers := { testHeaders with
      claimsCleaned := [("groups", "X-Groups")] } }

/-- The session after one `/login` for destination `abc`-stated attempts. -/
def sessStateOnly : Session :=
  ⟨[("state", SessVal.str "abc")]⟩

/-- A callback query carrying a provider error but a mismatched state. -/
def qErrMismatch : CallbackQuery :=
  ⟨"xyz", "access_denied", "denied by provider"⟩

/-- A callback query with matching state and a provider error. -/
def qErrMatch : CallbackQuery :=
  ⟨"abc", "access_denied", "denied by provider"⟩

/-- A clean callback query with matching state. -/
def qClean : CallbackQuery :=
  ⟨"abc", "", ""⟩

/-- `baseCfg` with the allow-all tier set. -/
def allowAllCfg : Config :=
  { baseCfg with allowAllUsers := true }

/-- A concrete identity. -/
def aliceUser : User :=
  { username := "alice", email := "alice@example.com", teamMemberships := [] }

/-- A session mid-flow: nonce stored, destination stored, two failures
recorded for the destination. -/
def sessMidFlow : Session :=
  ⟨[("state", SessVal.str "abc"),
    ("requestedURL", SessVal.str "https://app.example.com/page"),
    ("https://app.example.com/page", SessVal.int 2)]⟩

/-- A token creator returning a fixed string. -/
def fixedToken : User → CustomClaims → PTokens → String :=
  fun _ _ _ => "tok"

/-- A provider authorization endpoint as a function of the state. -/
def providerURL : String → String :=
  fun s => "https://provider.example.com/authorize?state=" ++ s

/-! Theorems.  The session-map lemmas come first; every claim theorem then
follows with its claim id in the doc comment. -/

theorem find?_filter_ne (l : List (String × SessVal)) (k k' : String)
    (h : k' ≠ k) :
    (l.filter fun p => p.1 ≠ k).find? (fun p => p.1 = k')
      = l.find? fun p => p.1 = k' := by
  induction l with
  | nil => rfl
  | cons a l ih =>
    rw [List.filter_cons]
    by_cases ha : a.1 = k
    · have ha' : ¬(a.1 = k') := by rw [ha]; exact fun e => h e.symm
      rw [if_neg (by simpa using ha), ih,
        List.find?_cons_of_neg _ (by simpa using ha')]
    · rw [if_pos (by simpa using ha)]
      by_cases hb : a.1 = k'
      · rw [List.find?_cons_of_pos _ (by simpa using hb),
          List.find?_cons_of_pos _ (by simpa using hb)]
      · rw [List.find?_cons_of_neg _ (by simpa using hb),
          List.find?_cons_of_neg _ (by simpa using hb), ih]

theorem Session.get_set_self (s : Session) (k : String) (v : SessVal) :
    (s.set k v).get k = some v := by
  simp [Session.get, Session.set]

theorem Session.get_set_ne (s : Session) (k k' : String) (v : SessVal)
    (h : k' ≠ k) : (s.set k v).get k' = s.get k' := by
  simp only [Session.get, Session.set]
  rw [List.find?_cons_of_neg _ (by simp [Ne.symm h]), find?_filter_ne _ _ _ h]

/-- C10: with no cookie token and an empty custom-header token, an
`Authorization` header containing a space yields its part after the first
space as the token, whatever the scheme; one with no space (or none at all)
is passed over and the token comes from the query-string parameter. -/
theorem findJWT_authHeader_split (r : Request)
    (hc : r.cookieJWT = none) (hj : r.jwtHeaderVal = "") :
    (∀ a b, splitN2 r.authHeaderVal ' ' = [a, b] → FindJWT r = b) ∧
    (∀ a, splitN2 r.authHeaderVal ' ' = [a] → FindJWT r = r.queryVal) := by
  constructor
  · intro a b hs
    have hne : r.authHeaderVal ≠ "" := by
      intro h0
      rw [h0] at hs
      simp [splitN2, splitCharAux] at hs
    simp only [FindJWT, hc, hj]
    rw [if_neg (by simp), if_pos hne, hs]
  · intro a hs
    by_cases hne : r.authHeaderVal = ""
    · simp only [FindJWT, hc, hj]
      rw [if_neg (by simp), if_neg (by simp [hne])]
      by_cases hq : r.queryVal = "" <;> simp [hq]
    · simp only [FindJWT, hc, hj]
      rw [if_neg (by simp), if_pos hne, hs]
      by_cases hq : r.queryVal = "" <;> simp [hq]

/-- Closed instance of the C10 theorem: a `Basic` scheme still yields the
second part, and a schemeless value falls through to the query parameter. -/
theorem findJWT_authHeader_split_witness :
    FindJWT ⟨none, "", "Basic abc123", "qtok", "h"⟩ = "abc123" ∧
    FindJWT ⟨none, "", "nospace", "qtok", "h"⟩ = "qtok" :=
  ⟨(findJWT_authHeader_split _ rfl rfl).1 "Basic" "abc123" (by decide),
   (findJWT_authHeader_split _ rfl rfl).2 "nospace" (by decide)⟩

/-- C3: `VerifyUser` agrees everywhere with the spec's tiered policy
function: allow-all, else non-empty username whitelist membership, else
non-empty team whitelist intersection, else non-empty managed-domain lookup,
else permit; being a function of the identity and the policy configuration it
is deterministic, and the `if`-chain evaluates exactly one tier. -/
theorem verifyUser_eq_specPolicy (cfg : Config) (ium : String → Bool)
    (user : User) : (VerifyUser cfg ium user).1 = specPolicy cfg ium user := by
  unfold VerifyUser specPolicy
  split_ifs <;>
    simp_all [List.length_eq_zero, List.any_eq_true, exists_eq_right']

/-- C2: with a found, parseable token holding a non-empty username and
allow-all off, a host outside the token's site set gets the 401 (naming the
host in its body) or, under public access, the empty-identity pass-through,
while a host inside the site set reaches the success path carrying the
identity header and the success-flag header. -/
theorem validate_site_check (cfg : Config)
    (parse : String → Except String VouchClaims) (r : Request)
    (claims : VouchClaims)
    (hfound : FindJWT r ≠ "")
    (hp : parse (FindJWT r) = .ok claims)
    (hu : claims.username ≠ "")
    (hall : cfg.allowAllUsers = false) :
    (SiteInClaims r.host claims = false →
      ValidateRequestHandler cfg parse r =
        (if cfg.publicAccess then publicEmptyResp cfg
         else error401Resp ("http header 'Host: " ++ r.host
           ++ "' not authorized for configured `vouch.domains` (is Host being sent properly?)"))
      ∧ (cfg.publicAccess = false →
        (ValidateRequestHandler cfg parse r).status = 401
        ∧ ∃ pre post,
          (ValidateRequestHandler cfg parse r).body = pre ++ r.host ++ post))
    ∧ (SiteInClaims r.host claims = true →
      (cfg.headers.user, claims.username)
          ∈ (ValidateRequestHandler cfg parse r).headers
      ∧ (cfg.headers.success, "true")
          ∈ (ValidateRequestHandler cfg parse r).headers) := by
  have hred : ValidateRequestHandler cfg parse r =
      (if ¬cfg.allowAllUsers ∧ ¬SiteInClaims r.host claims then
        if ¬cfg.publicAccess then
          error401Resp ("http header 'Host: " ++ r.host
            ++ "' not authorized for configured `vouch.domains` (is Host being sent properly?)")
        else publicEmptyResp cfg
      else
        let hdrs := validateSuccessHeaders cfg claims
        if cfg.testing then
          { renderIndexResp ("user authorized " ++ claims.username) with
              headers := hdrs }
        else
          { status := 200, headers := hdrs, body := "200 OK\n",
            cookieCleared := false, cookieSet := none }) := by
    simp only [ValidateRequestHandler]
    rw [if_neg hfound, hp]
    simp only []
    rw [if_neg hu]
  constructor
  · intro hsite
    rw [hred, if_pos ⟨by simp [hall], by simp [hsite]⟩]
    constructor
    · by_cases hpub : cfg.publicAccess <;> simp [hpub]
    · intro hpub
      rw [if_pos (by simp [hpub])]
      exact ⟨rfl, "http header 'Host: ",
        "' not authorized for configured `vouch.domains` (is Host being sent properly?)"
          ++ "\n",
        by simp [error401Resp, String.append_assoc]⟩
  · intro hsite
    rw [hred, if_neg (by simp [hsite])]
    by_cases htest : cfg.testing <;>
      simp [htest, validateSuccessHeaders]

/-- Closed instance of the C2 theorem: the token for `alice` authorized for
host `h` passes the site check and the response carries the identity and
success headers. -/
theorem validate_site_check_witness :
    ("X-Vouch-User", "alice")
        ∈ (ValidateRequestHandler baseCfg aliceParse reqTok).headers
      ∧ ("X-Vouch-Success", "true")
        ∈ (ValidateRequestHandler baseCfg aliceParse reqTok).headers :=
  (validate_site_check baseCfg aliceParse reqTok aliceClaims (by decide)
    rfl (by decide) rfl).2 (by decide)

/-- C4 counterexample: under public access an unparseable token and a missing
token produce different responses — the no-token path writes the `200 OK`
body, the parse-failure path writes nothing — so the responses are not
exactly the same. -/
theorem validate_parseFail_not_identical_cex :
    ValidateRequestHandler pubCfg badParse reqBad
      ≠ ValidateRequestHandler pubCfg badParse reqNone := by decide

/-- C4 (amended): a found-but-unparseable token, or one whose claims have an
empty username, lands in the same 401-or-public-pass-through branch as a
request with no token: status, headers written, and cookie clearing agree
exactly; only the bodies differ (the 401 body names the specific failure and
the public pass-through writes no body). -/
theorem validate_parseFail_mirrors_noToken (cfg : Config)
    (parse : String → Except String VouchClaims) (r rn : Request)
    (hfound : FindJWT r ≠ "")
    (hfail : ∀ c, parse (FindJWT r) = .ok c → c.username = "")
    (hnone : FindJWT rn = "") :
    (ValidateRequestHandler cfg parse r).status
        = (ValidateRequestHandler cfg parse rn).status
      ∧ (ValidateRequestHandler cfg parse r).headers
        = (ValidateRequestHandler cfg parse rn).headers
      ∧ (ValidateRequestHandler cfg parse r).cookieCleared
        = (ValidateRequestHandler cfg parse rn).cookieCleared := by
  have hrn : ValidateRequestHandler cfg parse rn =
      (if cfg.publicAccess then
        { status := 200, headers := [(cfg.headers.user, "")],
          body := "200 OK\n", cookieCleared := false, cookieSet := none }
      else error401Resp "no jwt found in request") := by
    simp only [ValidateRequestHandler]
    rw [if_pos hnone]
  cases hc : parse (FindJWT r) with
  | error e =>
    have hr : ValidateRequestHandler cfg parse r =
        (if ¬cfg.publicAccess then error401Resp e else publicEmptyResp cfg) := by
      simp only [ValidateRequestHandler]
      rw [if_neg hfound, hc]
    rw [hr, hrn]
    by_cases hpub : cfg.publicAccess <;>
      simp [hpub, error401Resp, publicEmptyResp]
  | ok c =>
    have hcu := hfail c hc
    have hr : ValidateRequestHandler cfg parse r =
        (if ¬cfg.publicAccess then error401Resp "no Username found in jwt"
         else publicEmptyResp cfg) := by
      simp only [ValidateRequestHandler]
      rw [if_neg hfound, hc]
      simp only []
      rw [if_pos hcu]
    rw [hr, hrn]
    by_cases hpub : cfg.publicAccess <;>
      simp [hpub, error401Resp, publicEmptyResp]

/-- Closed instance of the C4 theorem: without public access, the bad-token
response and the no-token response agree on status, headers and cookie
clearing. -/
theorem validate_parseFail_mirrors_noToken_witness :
    (ValidateRequestHandler baseCfg badParse reqBad).status
        = (ValidateRequestHandler baseCfg badParse reqNone).status
      ∧ (ValidateRequestHandler baseCfg badParse reqBad).headers
        = (ValidateRequestHandler baseCfg badParse reqNone).headers
      ∧ (ValidateRequestHandler baseCfg badParse reqBad).cookieCleared
        = (ValidateRequestHandler baseCfg badParse reqNone).cookieCleared :=
  validate_parseFail_mirrors_noToken baseCfg badParse reqBad reqNone
    (by decide) (fun c hc => by simp [badParse] at hc) rfl

/-- C9 counterexample: a claim value that is neither a sequence nor a scalar
(an arbitrary shape rendered by `fmt.Sprint` as `map[a:1]`) is not skipped:
its configured header is emitted with that string form. -/
theorem validate_otherClaim_projected_cex :
    ("X-Groups", "map[a:1]")
        ∈ (ValidateRequestHandler cfgGroups aliceParse reqTok).headers
      ∧ (ValidateRequestHandler cfgGroups aliceParse reqTok).status = 200 := by
  decide

/-- C9 (amended): in claim projection every configured mapping whose claim
matches a custom claim emits a header — a sequence as the comma-separated
list of its double-quoted elements, every other value (scalar or otherwise)
as its `fmt.Sprint` string form, since the string-kind guard always passes
and the logged-skip branch is unreachable — and the request succeeds with
status 200. -/
theorem validate_claim_projection (cfg : Config)
    (parse : String → Except String VouchClaims) (r : Request)
    (claims : VouchClaims) (claim header k : String) (v : ClaimValue)
    (hfound : FindJWT r ≠ "")
    (hp : parse (FindJWT r) = .ok claims)
    (hu : claims.username ≠ "")
    (hsite : cfg.allowAllUsers = true ∨ SiteInClaims r.host claims = true)
    (hmap : (claim, header) ∈ cfg.headers.claimsCleaned)
    (hkv : (k, v) ∈ claims.customClaims)
    (hmatch : claim = k) :
    (header, renderClaim v) ∈ (ValidateRequestHandler cfg parse r).headers
      ∧ (ValidateRequestHandler cfg parse r).status = 200 := by
  have hcond : ¬(¬cfg.allowAllUsers = true ∧ ¬SiteInClaims r.host claims = true) := by
    rcases hsite with h | h <;> simp [h]
  have hproj : (header, renderClaim v)
      ∈ projectClaims cfg.headers.claimsCleaned claims.customClaims := by
    have hlen : cfg.headers.claimsCleaned.length > 0 := by
      cases hcc : cfg.headers.claimsCleaned with
      | nil => rw [hcc] at hmap; simp at hmap
      | cons a l => simp [hcc]
    unfold projectClaims
    rw [if_pos hlen]
    refine List.mem_flatMap.mpr ⟨(k, v), hkv, ?_⟩
    refine List.mem_flatMap.mpr ⟨(claim, header), hmap, ?_⟩
    rw [if_pos hmatch]
    cases v <;> simp [renderClaim, fmtSprint]
  have hmem : (header, renderClaim v) ∈ validateSuccessHeaders cfg claims := by
    unfold validateSuccessHeaders
    simp only [List.mem_append]
    exact Or.inl (Or.inl (Or.inl hproj))
  have hred : ValidateRequestHandler cfg parse r =
      (let hdrs := validateSuccessHeaders cfg claims
        if cfg.testing then
          { renderIndexResp ("user authorized " ++ claims.username) with
              headers := hdrs }
        else
          { status := 200, headers := hdrs, body := "200 OK\n",
            cookieCleared := false, cookieSet := none }) := by
    simp only [ValidateRequestHandler]
    rw [if_neg hfound, hp]
    simp only []
    rw [if_neg hu, if_neg hcond]
  rw [hred]
  by_cases htest : cfg.testing <;> simp [htest, renderIndexResp, hmem]

/-- Closed instance of the C9 theorem: the mapping `groups` to `X-Groups`
with the other-shaped value renders its string form and the request
succeeds. -/
theorem validate_claim_projection_witness :
    ("X-Groups", renderClaim (ClaimValue.other "map[a:1]"))
        ∈ (ValidateRequestHandler cfgGroups aliceParse reqTok).headers
      ∧ (ValidateRequestHandler cfgGroups aliceParse reqTok).status = 200 :=
  validate_claim_projection cfgGroups aliceParse reqTok aliceClaims
    "groups" "X-Groups" "groups" (ClaimValue.other "map[a:1]")
    (by decide) rfl (by decide) (Or.inr (by decide)) (by decide) (by decide)
    rfl

/-- C1: the `/auth` callback sets a proof cookie only when the policy engine
approved the identity the provider populated, the cookie then holding exactly
the token `CreateUserTokenString` built for it; when the policy denies, no
cookie is set and no token string is created. -/
theorem callback_cookie_only_if_verified (cfg : Config) (ium : String → Bool)
    (ct : User → CustomClaims → PTokens → String) (sessErr : Option String)
    (gu : Except String (User × CustomClaims × PTokens))
    (sess : Session) (q : CallbackQuery) :
    (∀ ts, issuedCookie (CallbackHandler cfg ium ct sessErr gu sess q)
        = some ts →
      ∃ u cc pt, gu = .ok (u, cc, pt) ∧ (VerifyUser cfg ium u).1 = true
        ∧ ts = ct u cc pt)
    ∧ (∀ u cc pt, gu = .ok (u, cc, pt) → (VerifyUser cfg ium u).1 = false →
      issuedCookie (CallbackHandler cfg ium ct sessErr gu sess q) = none) := by
  unfold CallbackHandler
  split
  · exact ⟨fun ts hts => absurd hts (by simp [issuedCookie]),
      fun u cc pt hgu hv => by simp [issuedCookie]⟩
  · split
    · exact ⟨fun ts hts => absurd hts (by simp [issuedCookie, renderIndexResp]),
        fun u cc pt hgu hv => by simp [issuedCookie, renderIndexResp]⟩
    · split
      · exact ⟨fun ts hts => absurd hts (by simp [issuedCookie, renderIndexResp]),
          fun u cc pt hgu hv => by simp [issuedCookie, renderIndexResp]⟩
      · split
        · exact ⟨fun ts hts => absurd hts (by simp [issuedCookie]),
            fun u cc pt hgu hv => by simp [issuedCookie]⟩
        · split
          · rename_i user customClaims ptokens _ requestedURL _
            have hdeny : ∀ u cc pt,
                (Except.ok (user, customClaims, ptokens)
                  : Except String (User × CustomClaims × PTokens))
                    = .ok (u, cc, pt) →
                u = user ∧ cc = customClaims ∧ pt = ptokens := by
              intro u cc pt hgu
              have h2 := Except.ok.inj hgu
              exact ⟨(congrArg (fun p => p.1) h2).symm,
                (congrArg (fun p => p.2.1) h2).symm,
                (congrArg (fun p => p.2.2) h2).symm⟩
            split
            · -- requested URL known
              dsimp only
              split
              · -- policy denied: informational page, no cookie
                exact ⟨fun ts hts =>
                    absurd hts (by simp [issuedCookie, renderIndexResp]),
                  fun u cc pt hgu hv => by
                    simp [issuedCookie, renderIndexResp]⟩
              · rename_i hok
                rw [not_not] at hok
                constructor
                · intro ts hts
                  refine ⟨user, customClaims, ptokens, rfl, hok, ?_⟩
                  simp only [issuedCookie, Option.bind] at hts
                  exact (Option.some.inj hts).symm
                · intro u cc pt hgu hv
                  obtain ⟨rfl, rfl, rfl⟩ := hdeny u cc pt hgu
                  rw [hok] at hv
                  exact absurd hv (by simp)
            · -- no requested URL: page embedding the token
              dsimp only
              split
              · exact ⟨fun ts hts =>
                    absurd hts (by simp [issuedCookie, renderIndexResp]),
                  fun u cc pt hgu hv => by
                    simp [issuedCookie, renderIndexResp]⟩
              · rename_i hok
                rw [not_not] at hok
                constructor
                · intro ts hts
                  refine ⟨user, customClaims, ptokens, rfl, hok, ?_⟩
                  simp only [issuedCookie, Option.bind] at hts
                  exact (Option.some.inj hts).symm
                · intro u cc pt hgu hv
                  obtain ⟨rfl, rfl, rfl⟩ := hdeny u cc pt hgu
                  rw [hok] at hv
                  exact absurd hv (by simp)
          · exact ⟨fun ts hts => absurd hts (by simp [issuedCookie]),
              fun u cc pt hgu hv => by simp [issuedCookie]⟩

/-- Closed instance of the C1 theorem: a run whose callback set the cookie
`tok` did go through an affirmative policy decision for the provider's
identity. -/
theorem callback_cookie_only_if_verified_witness :
    ∃ u cc pt,
      (Except.ok (aliceUser, ([] : CustomClaims),
          ({ pAccessToken := "", pIdToken := "" } : PTokens))
        : Except String (User × CustomClaims × PTokens)) = .ok (u, cc, pt)
      ∧ (VerifyUser allowAllCfg (fun _ => false) u).1 = true
      ∧ "tok" = fixedToken u cc pt :=
  (callback_cookie_only_if_verified allowAllCfg (fun _ => false) fixedToken
    none (.ok (aliceUser, [], { pAccessToken := "", pIdToken := "" }))
    sessMidFlow qClean).1 "tok" (by decide)

/-- C5 counterexample: a callback whose query carries a non-empty `error`
but whose `state` does not match the stored nonce is answered by the
invalid-state page with status 200, not 403 — the state comparison runs
before the error check. -/
theorem callback_error_not_always_403_cex :
    (CallbackHandler baseCfg (fun _ => false) fixedToken none
        (.error "e") sessStateOnly qErrMismatch).map (fun p => p.2.status)
      = some 200
    ∧ (CallbackHandler baseCfg (fun _ => false) fixedToken none
        (.error "e") sessStateOnly qErrMismatch).map (fun p => p.2.status)
      ≠ some 403 := by decide

/-- C5 (amended): on a callback whose `state` matches the stored nonce and
whose query carries a non-empty `error`, the handler responds 403 rendering
the `error_description` and stops: the response is independent of the
userinfo outcome, the policy engine, and the token creator, and no cookie is
set. -/
theorem callback_error_forbidden (cfg : Config) (ium : String → Bool)
    (ct : User → CustomClaims → PTokens → String)
    (gu : Except String (User × CustomClaims × PTokens))
    (sess : Session) (q : CallbackQuery)
    (hstate : sess.get "state" = some (.str q.state))
    (herr : q.error ≠ "") :
    CallbackHandler cfg ium ct none gu sess q =
      some (sess, { renderIndexResp ("FORBIDDEN: " ++ q.errorDescription) with
        status := 403 }) := by
  simp only [CallbackHandler]
  rw [if_neg (by simp [hstate]), if_pos herr]

/-- Closed instance of the C5 theorem: matching state plus a provider error
yields the 403 page for the error description. -/
theorem callback_error_forbidden_witness :
    CallbackHandler baseCfg (fun _ => false) fixedToken none
        (.error "e") sessStateOnly qErrMatch =
      some (sessStateOnly,
        { renderIndexResp ("FORBIDDEN: " ++ "denied by provider") with
          status := 403 }) :=
  callback_error_forbidden baseCfg (fun _ => false) fixedToken (.error "e")
    sessStateOnly qErrMatch (by decide) (by decide)

/-- C6 counterexample: after a fully successful callback the stored nonce is
still in the session — only the destination URL and its failure count are
reset — so the handler does not clear the stored nonce. -/
theorem callback_nonce_not_cleared_cex :
    (CallbackHandler allowAllCfg (fun _ => false) fixedToken none
        (.ok (aliceUser, [], { pAccessToken := "", pIdToken := "" }))
        sessMidFlow qClean).map (fun p => p.1.get "state")
      = some (some (SessVal.str "abc")) := by decide

/-- C6 (amended): on a successful callback with a known requested URL the
handler sets the proof-token cookie, resets the stored destination URL to the
empty string and that destination's failure count to zero — the stored nonce
is left in place — and responds with a 302 redirect to the requested URL;
with no known requested URL it renders a page embedding the issued token. -/
theorem callback_success_clears_destination (cfg : Config)
    (ium : String → Bool) (ct : User → CustomClaims → PTokens → String)
    (gu : Except String (User × CustomClaims × PTokens))
    (sess : Session) (q : CallbackQuery) (u : User) (cc : CustomClaims)
    (pt : PTokens) (rURL : String)
    (hstate : sess.get "state" = some (.str q.state))
    (herr : q.error = "")
    (hgu : gu = .ok (u, cc, pt))
    (hr : sess.get "requestedURL" = some (.str rURL))
    (hv : (VerifyUser cfg ium u).1 = true)
    (ht : cfg.testing = false) :
    (rURL ≠ "" →
      CallbackHandler cfg ium ct none gu sess q =
        some ((sess.set "requestedURL" (.str "")).set rURL (.int 0),
          { status := 302, headers := [("Location", rURL)], body := "",
            cookieCleared := false, cookieSet := some (ct u cc pt) }))
    ∧ (rURL = "" →
      CallbackHandler cfg ium ct none gu sess q =
        some (sess, { renderIndexResp ("/auth " ++ ct u cc pt) with
          cookieSet := some (ct u cc pt) })) := by
  subst hgu
  simp only [CallbackHandler]
  rw [if_neg (by simp [hstate]), if_neg (by simp [herr])]
  rw [hr]
  dsimp only
  rw [if_neg (by simp [hv])]
  constructor
  · intro hne
    rw [if_pos hne]
    simp [redirect302Resp, ht, renderIndexResp]
  · intro heq
    rw [if_neg (by simp [heq])]

/-- Closed instance of the C6 theorem: the successful callback for the
mid-flow session redirects to the stored destination with the cookie set and
the destination state reset. -/
theorem callback_success_clears_destination_witness :
    CallbackHandler allowAllCfg (fun _ => false) fixedToken none
        (.ok (aliceUser, [], { pAccessToken := "", pIdToken := "" }))
        sessMidFlow qClean =
      some ((sessMidFlow.set "requestedURL" (.str "")).set
          "https://app.example.com/page" (.int 0),
        { status := 302,
          headers := [("Location", "https://app.example.com/page")],
          body := "", cookieCleared := false, cookieSet := some "tok" }) :=
  (callback_success_clears_destination allowAllCfg (fun _ => false)
    fixedToken _ sessMidFlow qClean aliceUser []
    { pAccessToken := "", pIdToken := "" } "https://app.example.com/page"
    (by decide) rfl rfl (by decide) (by decide) rfl).1 (by decide)

/-- C7: evaluation of `/login` at a request where the random source fails —
against the claim, the handler only logs the error and proceeds: it stores
the empty string as the session state and still responds with the 302
redirect to the provider's authorization endpoint carrying that empty
state. -/
theorem login_proceeds_on_nonce_failure :
    (LoginHandler baseCfg (Except.error "random source failed") providerURL
        ⟨[]⟩ ⟨"https://app.example.com/page", ""⟩).map
      (fun p => (p.2.status, p.2.headers, p.1.get "state"))
      = some (302,
          [("Location", "https://provider.example.com/authorize?state=")],
          some (SessVal.str "")) := by decide

/-- One `/login` invocation, characterized for a destination URL distinct
from the two reserved session keys: the failure counter goes from `n` to
`n + 1` and the response is the redirect while `n + 1 ≤ 2`, the error page
once `n + 1 > 2`. -/
theorem loginStep_spec (cfg : Config) (rand : Except String String)
    (f : String → String) (sess : Session) (r : LoginRequest)
    (hurl : r.url ≠ "") (h1 : r.url ≠ "state") (h2 : r.url ≠ "requestedURL")
    (n : Int)
    (hget : sess.get r.url = none ∧ n = 0 ∨ sess.get r.url = some (.int n)) :
    LoginHandler cfg rand f sess r =
      some ((((sess.set "state" (.str (stateOf rand))).set "requestedURL"
          (.str r.url)).set r.url (.int (n + 1))),
        if n + 1 > 2 then
          { renderIndexResp ("/login too many redirects for " ++ r.url
              ++ " - " ++ r.errorParam) with cookieCleared := true }
        else
          { redirect302Resp cfg (f (stateOf rand)) with
              cookieCleared := true }) := by
  have hg : (((sess.set "state" (.str (stateOf rand))).set "requestedURL"
      (.str r.url))).get r.url = sess.get r.url := by
    rw [Session.get_set_ne _ _ _ _ h2, Session.get_set_ne _ _ _ _ h1]
  simp only [LoginHandler]
  rw [if_neg hurl]
  rcases hget with ⟨hn, rfl⟩ | hn
  · rw [hg, hn]
    norm_num
  · rw [hg, hn]
    dsimp only
    split <;> rfl

/-- C8: three consecutive `/login` requests for the same fresh destination
URL in one session, with no intervening successful callback: the first two
respond with the 302 redirect to the provider, the third renders the
too-many-redirects error page instead. -/
theorem login_redirect_loop_guard (cfg : Config)
    (rand1 rand2 rand3 : Except String String) (f1 f2 f3 : String → String)
    (sess0 : Session) (r : LoginRequest)
    (hurl : r.url ≠ "") (h1 : r.url ≠ "state") (h2 : r.url ≠ "requestedURL")
    (ht : cfg.testing = false) (h0 : sess0.get r.url = none) :
    ∃ s1 r1 s2 r2 s3 r3,
      LoginHandler cfg rand1 f1 sess0 r = some (s1, r1) ∧ r1.status = 302 ∧
      LoginHandler cfg rand2 f2 s1 r = some (s2, r2) ∧ r2.status = 302 ∧
      LoginHandler cfg rand3 f3 s2 r = some (s3, r3) ∧ r3.status = 200 ∧
      r3.body = indexBody ("/login too many redirects for " ++ r.url
        ++ " - " ++ r.errorParam) := by
  have e1 := loginStep_spec cfg rand1 f1 sess0 r hurl h1 h2 0
    (Or.inl ⟨h0, rfl⟩)
  rw [if_neg (by norm_num)] at e1
  set S1 : Session := ((sess0.set "state"
      (SessVal.str (stateOf rand1))).set "requestedURL"
      (SessVal.str r.url)).set r.url (SessVal.int (0 + 1)) with hS1def
  have hg1 : S1.get r.url = some (.int 1) := by
    rw [hS1def, Session.get_set_self]
    norm_num
  have e2 := loginStep_spec cfg rand2 f2 S1 r hurl h1 h2 1 (Or.inr hg1)
  rw [if_neg (by norm_num)] at e2
  set S2 : Session := ((S1.set "state"
      (SessVal.str (stateOf rand2))).set "requestedURL"
      (SessVal.str r.url)).set r.url (SessVal.int (1 + 1)) with hS2def
  have hg2 : S2.get r.url = some (.int 2) := by
    rw [hS2def, Session.get_set_self]
    norm_num
  have e3 := loginStep_spec cfg rand3 f3 S2 r hurl h1 h2 2 (Or.inr hg2)
  rw [if_pos (by norm_num)] at e3
  refine ⟨S1, _, S2, _, _, _, e1, ?_, e2, ?_, e3, ?_, ?_⟩
  · simp [redirect302Resp, ht]
  · simp [redirect302Resp, ht]
  · simp [renderIndexResp]
  · simp [renderIndexResp]

/-- Closed instance of the C8 theorem: a concrete fresh session and
destination show redirect, redirect, then the error page. -/
theorem login_redirect_loop_guard_witness :
    ∃ s1 r1 s2 r2 s3 r3,
      LoginHandler baseCfg (.ok "r1") providerURL ⟨[]⟩
          ⟨"https://app.example.com/page", ""⟩ = some (s1, r1)
        ∧ r1.status = 302
        ∧ LoginHandler baseCfg (.ok "r2") providerURL s1
          ⟨"https://app.example.com/page", ""⟩ = some (s2, r2)
        ∧ r2.status = 302
        ∧ LoginHandler baseCfg (.ok "r3") providerURL s2
          ⟨"https://app.example.com/page", ""⟩ = some (s3, r3)
        ∧ r3.status = 200
        ∧ r3.body = indexBody ("/login too many redirects for "
            ++ "https://app.example.com/page" ++ " - " ++ "") :=
  login_redirect_loop_guard baseCfg (.ok "r1") (.ok "r2") (.ok "r3")
    providerURL providerURL providerURL ⟨[]⟩
    ⟨"https://app.example.com/page", ""⟩
    (by decide) (by decide) (by decide) rfl rfl

end Vouch
